import Mathlib

/-!
Verification of the reply-drafting pipeline of the AI Email Reply Assistant
(`src/email_assistant.py`), shallowly embedded in Lean 4.

The external generation service (`client.models.generate_content`) is modelled
as an oracle `svc : String → Except String String`: `.error e` models a raised
exception with message `e`, `.ok t` models a successful response whose `.text`
is `t` (with `""` standing for a falsy/empty response text).  File parsing
layers that live in external libraries (`email.message_from_bytes`,
`docx.Document`) are modelled at the parsed level: the embedded extractors
receive the parsed message / paragraph list, exactly the data the Python code
reads off those library objects.  Byte-level UTF-8 decoding, which the Python
code performs itself via `bytes.decode`, is embedded in full.
-/

/-! ### UTF-8 decoding (`bytes.decode('utf-8', ...)`) -/

/-- A byte is a UTF-8 continuation byte (`0x80..0xBF`). -/
def isCont (b : Nat) : Bool := decide (0x80 ≤ b ∧ b ≤ 0xBF)

/-- Valid range of the byte following a 3- or 4-byte lead byte `b`,
per the UTF-8 specification (excluding overlong forms and surrogates),
as enforced by CPython's UTF-8 decoder. -/
def contOk2 (b c : Nat) : Bool :=
  if b = 0xE0 then decide (0xA0 ≤ c ∧ c ≤ 0xBF)
  else if b = 0xED then decide (0x80 ≤ c ∧ c ≤ 0x9F)
  else if b = 0xF0 then decide (0x90 ≤ c ∧ c ≤ 0xBF)
  else if b = 0xF4 then decide (0x80 ≤ c ∧ c ≤ 0x8F)
  else isCont c

/-- Worker for `decode('utf-8', errors='ignore')`: invalid sequences are
dropped and decoding continues.  `fuel` bounds the recursion (any value
`≥ length` gives the decoder's result, since every step consumes at least
one byte). -/
def utf8DecodeIgnoreAux : Nat → List Nat → List Char
  | 0, _ => []
  | _ + 1, [] => []
  | fuel + 1, b :: rest =>
    if b ≤ 0x7F then
      Char.ofNat b :: utf8DecodeIgnoreAux fuel rest
    else if 0xC2 ≤ b ∧ b ≤ 0xDF then
      match rest with
      | [] => []
      | c1 :: rest2 =>
        if isCont c1 then
          Char.ofNat ((b - 0xC0) * 0x40 + (c1 - 0x80)) :: utf8DecodeIgnoreAux fuel rest2
        else
          utf8DecodeIgnoreAux fuel (c1 :: rest2)
    else if 0xE0 ≤ b ∧ b ≤ 0xEF then
      match rest with
      | [] => []
      | [c1] => if contOk2 b c1 then [] else utf8DecodeIgnoreAux fuel [c1]
      | c1 :: c2 :: rest3 =>
        if contOk2 b c1 then
          if isCont c2 then
            Char.ofNat ((b - 0xE0) * 0x1000 + (c1 - 0x80) * 0x40 + (c2 - 0x80)) ::
              utf8DecodeIgnoreAux fuel rest3
          else
            utf8DecodeIgnoreAux fuel (c2 :: rest3)
        else
          utf8DecodeIgnoreAux fuel (c1 :: c2 :: rest3)
    else if 0xF0 ≤ b ∧ b ≤ 0xF4 then
      match rest with
      | [] => []
      | [c1] => if contOk2 b c1 then [] else utf8DecodeIgnoreAux fuel [c1]
      | [c1, c2] =>
        if contOk2 b c1 then
          if isCont c2 then [] else utf8DecodeIgnoreAux fuel [c2]
        else utf8DecodeIgnoreAux fuel [c1, c2]
      | c1 :: c2 :: c3 :: rest4 =>
        if contOk2 b c1 then
          if isCont c2 then
            if isCont c3 then
              Char.ofNat ((b - 0xF0) * 0x40000 + (c1 - 0x80) * 0x1000 +
                  (c2 - 0x80) * 0x40 + (c3 - 0x80)) :: utf8DecodeIgnoreAux fuel rest4
            else
              utf8DecodeIgnoreAux fuel (c3 :: rest4)
          else
            utf8DecodeIgnoreAux fuel (c2 :: c3 :: rest4)
        else
          utf8DecodeIgnoreAux fuel (c1 :: c2 :: c3 :: rest4)
    else
      utf8DecodeIgnoreAux fuel rest

/-- `bytes.decode('utf-8', errors='ignore')`. -/
def utf8DecodeIgnore (bytes : List Nat) : String :=
  String.mk (utf8DecodeIgnoreAux bytes.length bytes)

/-- Worker for strict `str(bytes, 'utf-8')`: `none` models a raised
`UnicodeDecodeError`. -/
def utf8DecodeStrictAux : Nat → List Nat → Option (List Char)
  | 0, [] => some []
  | 0, _ :: _ => none
  | _ + 1, [] => some []
  | fuel + 1, b :: rest =>
    if b ≤ 0x7F then
      (utf8DecodeStrictAux fuel rest).map (Char.ofNat b :: ·)
    else if 0xC2 ≤ b ∧ b ≤ 0xDF then
      match rest with
      | c1 :: rest2 =>
        if isCont c1 then
          (utf8DecodeStrictAux fuel rest2).map
            (Char.ofNat ((b - 0xC0) * 0x40 + (c1 - 0x80)) :: ·)
        else none
      | [] => none
    else if 0xE0 ≤ b ∧ b ≤ 0xEF then
      match rest with
      | c1 :: c2 :: rest3 =>
        if contOk2 b c1 ∧ isCont c2 then
          (utf8DecodeStrictAux fuel rest3).map
            (Char.ofNat ((b - 0xE0) * 0x1000 + (c1 - 0x80) * 0x40 + (c2 - 0x80)) :: ·)
        else none
      | _ => none
    else if 0xF0 ≤ b ∧ b ≤ 0xF4 then
      match rest with
      | c1 :: c2 :: c3 :: rest4 =>
        if contOk2 b c1 ∧ isCont c2 ∧ isCont c3 then
          (utf8DecodeStrictAux fuel rest4).map
            (Char.ofNat ((b - 0xF0) * 0x40000 + (c1 - 0x80) * 0x1000 +
              (c2 - 0x80) * 0x40 + (c3 - 0x80)) :: ·)
        else none
      | _ => none
    else none

/-- Strict decode `str(file_bytes, 'utf-8')`; `none` = `UnicodeDecodeError`. -/
def utf8DecodeStrict (bytes : List Nat) : Option String :=
  (utf8DecodeStrictAux bytes.length bytes).map String.mk

/-! ### PromptComposer (`generate_email_reply`, lines 54-122) -/

/-- The `tone_instructions` dict of `generate_email_reply`. -/
def tone_instructions (tone : String) : Option String :=
  if tone = "professional" then some "Use formal business language, be respectful and direct"
  else if tone = "friendly" then
    some "Use warm, approachable language while maintaining professionalism"
  else if tone = "casual" then
    some "Use relaxed, conversational tone but still appropriate for business"
  else if tone = "formal" then
    some "Use very formal, traditional business language with proper etiquette"
  else if tone = "empathetic" then
    some "Show understanding and compassion, acknowledge concerns warmly"
  else if tone = "assertive" then
    some "Be confident and clear, take charge of the situation"
  else none

/-- The `length_instructions` dict of `generate_email_reply`. -/
def length_instructions (length : String) : Option String :=
  if length = "short" then some "Keep the reply to 2-3 sentences maximum, be very concise"
  else if length = "medium" then some "Write a balanced reply of 1-2 paragraphs"
  else if length = "detailed" then
    some "Provide a comprehensive response with detailed explanations"
  else none

/-- The `action_prompts` dict of `generate_email_reply`. -/
def action_prompts (action : String) : Option String :=
  if action = "accept_meeting" then
    some "Accept the meeting invitation graciously and confirm availability"
  else if action = "decline_politely" then
    some "Politely decline the request with a brief explanation"
  else if action = "request_info" then
    some "Ask for additional information or clarification professionally"
  else if action = "acknowledge" then
    some "Acknowledge receipt and provide appropriate response"
  else if action = "schedule_followup" then
    some "Suggest scheduling a follow-up meeting or call"
  else none

/-- `tone_instructions.get(tone, tone_instructions['professional'])`. -/
def toneInstr (tone : String) : String :=
  (tone_instructions tone).getD "Use formal business language, be respectful and direct"

/-- `length_instructions.get(length, length_instructions['medium'])`. -/
def lengthInstr (length : String) : String :=
  (length_instructions length).getD "Write a balanced reply of 1-2 paragraphs"

/-- The `base_prompt` construction of `generate_email_reply` (lines 85-107):
the triple-quoted f-string with its literal indentation, the optional
`SPECIFIC ACTION` line (added only when `action_type` is truthy and a key of
`action_prompts`), then the email body and the fixed structural instructions. -/
def composeReplyPrompt (email_content tone length : String)
    (action_type : Option String) : String :=
  let p1 :=
    "\n        Write a professional email reply to the following email. \n        \n        TONE: "
      ++ toneInstr tone ++ "\n        LENGTH: " ++ lengthInstr length ++ "\n        "
  let p2 :=
    match action_type with
    | none => p1
    | some a =>
      match action_prompts a with
      | some instr => p1 ++ "\nSPECIFIC ACTION: " ++ instr
      | none => p1
  p2 ++ "\n        \n        Original email to reply to:\n        " ++ email_content
    ++ "\n        \n        Generate a complete email reply with:\n        - Appropriate subject line (if needed)\n        - Professional greeting\n        - Main body addressing the sender\x27s points\n        - Appropriate closing\n        \n        Do not include sender\x27s signature - that will be added separately.\n        "

/-- A character Python's `str.strip()` removes: the code points for which
CPython's `Py_UNICODE_ISSPACE` holds — tab through carriage return
(U+0009-U+000D), the file/group/record/unit separators (U+001C-U+001F),
space, next line (U+0085), no-break space (U+00A0), ogham space mark
(U+1680), the en-quad-to-hair-space block (U+2000-U+200A), line and
paragraph separators (U+2028, U+2029), narrow no-break space (U+202F),
medium mathematical space (U+205F) and ideographic space (U+3000). -/
def pyIsSpace (c : Char) : Bool :=
  let n := c.toNat
  decide (0x09 ≤ n ∧ n ≤ 0x0D) || n == 0x20 || decide (0x1C ≤ n ∧ n ≤ 0x1F)
    || n == 0x85 || n == 0xA0 || n == 0x1680
    || decide (0x2000 ≤ n ∧ n ≤ 0x200A) || n == 0x2028 || n == 0x2029
    || n == 0x202F || n == 0x205F || n == 0x3000

/-- Python's `str.strip()` with no arguments: drop whitespace from both
ends. -/
def pyStrip (s : String) : String :=
  String.mk (((s.data.dropWhile pyIsSpace).reverse.dropWhile pyIsSpace).reverse)

/-- Signature application (lines 117-118): `if custom_signature.strip():
reply_text += f"\n\n{custom_signature}"`, the condition being truthiness
(non-emptiness) of the stripped signature. -/
def applySignature (reply_text custom_signature : String) : String :=
  if pyStrip custom_signature ≠ "" then reply_text ++ "\n\n" ++ custom_signature
  else reply_text

/-- `generate_email_reply` (lines 54-122) with the generation service as an
oracle `svc` from the composed prompt to the outcome of
`client.models.generate_content`: `.error e` = a raised exception (caught at
line 121, returning the error string), `.ok t` = a response with text `t`
(`""` standing for a falsy `response.text`, replaced at line 114). -/
def generate_email_reply (svc : String → Except String String)
    (email_content tone length : String) (action_type : Option String)
    (custom_signature : String) : String :=
  let base_prompt := composeReplyPrompt email_content tone length action_type
  match svc base_prompt with
  | .error e => "Error generating reply: " ++ e
  | .ok t =>
    let reply_text := if t = "" then "Unable to generate reply." else t
    applySignature reply_text custom_signature

/-! ### FormatExtractor (`extract_text_from_docx`, `extract_text_from_eml`,
and the upload branch of `main`) -/

/-- Python's `sep.join(items)`: items in order with `sep` between each
adjacent pair (empty list gives the empty string). -/
def pyJoin (sep : String) : List String → String
  | [] => ""
  | [x] => x
  | x :: y :: rest => x ++ sep ++ pyJoin sep (y :: rest)

/-- `extract_text_from_docx` (lines 124-133), with the external
`docx.Document` parse modelled by its outcome: `.ok paragraphs` is the list
of `paragraph.text` values in document order, `.error e` a raised exception
(caught at line 132).  The success path is `'\n'.join(text)`. -/
def extract_text_from_docx (doc : Except String (List String)) : String :=
  match doc with
  | .error e => "Error reading DOCX file: " ++ e
  | .ok paragraphs => pyJoin "\n" paragraphs

/-- One leaf part of a parsed multipart message, as the code reads it:
`part.get_content_type()` and the `decode=True` payload bytes. -/
structure EmailPart where
  content_type : String
  payload : List Nat
deriving DecidableEq

/-- The body shape of a parsed message: `msg.is_multipart()` distinguishes
the two branches of lines 147-153; `multipart` carries the leaf parts in
`msg.walk()` order, `single` the `decode=True` payload bytes. -/
inductive EmailBody where
  | multipart (parts : List EmailPart)
  | single (payload : List Nat)
deriving DecidableEq

/-- A parsed message as `extract_text_from_eml` reads it off
`email.message_from_bytes`: the three headers (`none` = absent, so
`msg.get` returns its default) and the body. -/
structure EmailMsg where
  subject : Option String
  sender : Option String
  date : Option String
  body : EmailBody
deriving DecidableEq

/-- The `for part in msg.walk(): if part.get_content_type() == "text/plain":
... break` loop (lines 148-151): payload of the first `text/plain` part. -/
def firstTextPlain : List EmailPart → Option (List Nat)
  | [] => none
  | p :: ps => if p.content_type = "text/plain" then some p.payload else firstTextPlain ps

/-- `extract_text_from_eml` (lines 135-158) from the parsed message on:
header defaults `No Subject` / `Unknown Sender` / `No Date`, body from the
first `text/plain` part if multipart (`""` when none matches, since `body`
is initialised to `""`), otherwise the single payload, each decoded with
`decode('utf-8', errors='ignore')`, assembled as the `formatted_email`
f-string of line 155. -/
def extract_text_from_eml (msg : EmailMsg) : String :=
  let subject := msg.subject.getD "No Subject"
  let sender := msg.sender.getD "Unknown Sender"
  let date := msg.date.getD "No Date"
  let body :=
    match msg.body with
    | .multipart parts =>
      match firstTextPlain parts with
      | some bytes => utf8DecodeIgnore bytes
      | none => ""
    | .single payload => utf8DecodeIgnore payload
  "From: " ++ sender ++ "\nSubject: " ++ subject ++ "\nDate: " ++ date ++ "\n\n" ++ body

/-- The plain-text upload branch of `main` (lines 241-242):
`email_content = str(file_bytes, 'utf-8')`, a strict UTF-8 decode with no
enclosing `try`/`except`, so `none` models an uncaught `UnicodeDecodeError`
escaping `main`. -/
def loadTxtUpload (file_bytes : List Nat) : Option String :=
  utf8DecodeStrict file_bytes

/-! ### DraftSessionManager (the draft loop, edit/save and export of `main`) -/

/-- A generated draft: 1-based `index` as displayed (`Draft {i+1}`),
current `content` (`drafts[i]`), and its edit flag
(`st.session_state["edit_mode_{i+1}"]`, `False` when freshly generated). -/
structure Draft where
  index : Nat
  content : String
  editMode : Bool
deriving DecidableEq

instance : Inhabited Draft := ⟨⟨0, "", false⟩⟩

/-- The per-draft variation marker of line 315:
`f" (Draft {i+1} variation)" if num_drafts > 1 else ""` (0-based `i`). -/
def variationMarker (num_drafts i : Nat) : String :=
  if num_drafts > 1 then " (Draft " ++ toString (i + 1) ++ " variation)" else ""

/-- The batch-generation loop of `main` (lines 311-323): for each
`i in range(num_drafts)`, call `generate_email_reply` on the email content
plus the variation marker and store the result.  `svc i` is the generation
service oracle for the `i`-th call (each call is independent). -/
def generateBatch (svc : Nat → String → Except String String)
    (email_content tone length : String) (action_type : Option String)
    (custom_signature : String) (num_drafts : Nat) : List Draft :=
  (List.range num_drafts).map fun i =>
    { index := i + 1
      content := generate_email_reply (svc i)
        (email_content ++ variationMarker num_drafts i) tone length
        action_type custom_signature
      editMode := false }

/-- The save-changes handler (line 357): `drafts[i] = edited_draft` for the
1-based draft number `i` (the list index is `i - 1`). -/
def saveEdit (drafts : List String) (i : Nat) (newText : String) : List String :=
  drafts.set (i - 1) newText

/-- One section of the download artifact (line 380):
`f"=== DRAFT {i+1} ===\n{draft}\n\n"` with 1-based index `idx`. -/
def draftSection (idx : Nat) (content : String) : String :=
  "=== DRAFT " ++ toString idx ++ " ===\n" ++ content ++ "\n\n"

/-- The accumulation loop of lines 379-380, rendering drafts with 1-based
indices starting at `start`. -/
def exportAllFrom (start : Nat) : List String → String
  | [] => ""
  | d :: ds => draftSection start d ++ exportAllFrom (start + 1) ds

/-- The `combined_drafts` artifact (lines 378-380): the timestamp header
line, a blank line, then every draft section in index order. -/
def exportAll (timestamp : String) (drafts : List String) : String :=
  "Generated Email Replies - " ++ timestamp ++ "\n\n" ++ exportAllFrom 1 drafts

/-! ### Claims -/

/-- Claim C3: for identical inputs (body, tone, length, actionType,
signature), the composed reply prompt passed to the generation service is
byte-identical across the two runs: prompt composition is a pure,
deterministic function of those inputs with no other dependence (in
particular, the signature never enters the prompt). -/
theorem claim_C3_prompt_deterministic (b1 b2 t1 t2 l1 l2 s1 s2 : String)
    (a1 a2 : Option String) (hb : b1 = b2) (ht : t1 = t2) (hl : l1 = l2)
    (ha : a1 = a2) (hs : s1 = s2) :
    composeReplyPrompt b1 t1 l1 a1 = composeReplyPrompt b2 t2 l2 a2 := by
  subst hb ht hl ha hs
  rfl

/-- Witness for C3 at a concrete input. -/
theorem claim_C3_prompt_deterministic_witness :
    composeReplyPrompt "Hi there" "friendly" "short" (some "acknowledge")
      = composeReplyPrompt "Hi there" "friendly" "short" (some "acknowledge") :=
  claim_C3_prompt_deterministic "Hi there" "Hi there" "friendly" "friendly"
    "short" "short" "sig" "sig" (some "acknowledge") (some "acknowledge")
    rfl rfl rfl rfl rfl

/-- Claim C4: for a tone outside the six defined tone values the composed
prompt uses the professional tone instruction, and for a length outside the
three defined values it uses the medium length instruction: composition is
total (it is a Lean function) and degrades to those defaults rather than
failing. -/
theorem claim_C4_unknown_enum_defaults (body tone len : String)
    (action : Option String) :
    (tone ∉ ["professional", "friendly", "casual", "formal", "empathetic", "assertive"] →
      composeReplyPrompt body tone len action
        = composeReplyPrompt body "professional" len action)
    ∧ (len ∉ ["short", "medium", "detailed"] →
      composeReplyPrompt body tone len action
        = composeReplyPrompt body tone "medium" action) := by
  constructor
  · intro h
    simp only [List.mem_cons, List.mem_singleton, not_or] at h
    obtain ⟨h1, h2, h3, h4, h5, h6, -⟩ := h
    have hti : toneInstr tone = toneInstr "professional" := by
      simp [toneInstr, tone_instructions, h1, h2, h3, h4, h5, h6]
    simp [composeReplyPrompt, hti]
  · intro h
    simp only [List.mem_cons, List.mem_singleton, not_or] at h
    obtain ⟨h1, h2, h3, -⟩ := h
    have hli : lengthInstr len = lengthInstr "medium" := by
      simp [lengthInstr, length_instructions, h1, h2, h3]
    simp [composeReplyPrompt, hli]

/-- Witness for C4 at the unrecognized values `"angry"` and `"huge"`. -/
theorem claim_C4_unknown_enum_defaults_witness :
    ("angry" ∉ ["professional", "friendly", "casual", "formal", "empathetic", "assertive"]
      ∧ composeReplyPrompt "B" "angry" "medium" none
          = composeReplyPrompt "B" "professional" "medium" none)
    ∧ ("huge" ∉ ["short", "medium", "detailed"]
      ∧ composeReplyPrompt "B" "professional" "huge" none
          = composeReplyPrompt "B" "professional" "medium" none) :=
  ⟨⟨by decide,
    (claim_C4_unknown_enum_defaults "B" "angry" "medium" none).1 (by decide)⟩,
   ⟨by decide,
    (claim_C4_unknown_enum_defaults "B" "professional" "huge" none).2 (by decide)⟩⟩

/-- Claim C5: if the stripped signature is non-empty, signature application
returns the reply text, two newlines, then the signature verbatim; if the
signature strips to empty (empty or only whitespace) the reply text is
returned unchanged. -/
theorem claim_C5_applySignature (reply sig : String) :
    (pyStrip sig = "" → applySignature reply sig = reply)
    ∧ (pyStrip sig ≠ "" → applySignature reply sig = reply ++ "\n\n" ++ sig) := by
  constructor <;> intro h <;> simp [applySignature, h]

/-- Witness for C5 at the spec's three examples, plus a signature of only
non-ASCII whitespace (a no-break space and an ideographic space), which
also strips to empty and leaves the reply unchanged. -/
theorem claim_C5_applySignature_witness :
    (pyStrip "" = "" ∧ applySignature "Hello" "" = "Hello")
    ∧ (pyStrip "  " = "" ∧ applySignature "Hello" "  " = "Hello")
    ∧ (pyStrip "\u00A0\u3000" = "" ∧ applySignature "Hello" "\u00A0\u3000" = "Hello")
    ∧ (pyStrip "Best, A" ≠ "" ∧ applySignature "Hello" "Best, A" = "Hello\n\nBest, A") :=
  ⟨⟨by decide, (claim_C5_applySignature "Hello" "").1 (by decide)⟩,
   ⟨by decide, (claim_C5_applySignature "Hello" "  ").1 (by decide)⟩,
   ⟨by decide, (claim_C5_applySignature "Hello" "\u00A0\u3000").1 (by decide)⟩,
   ⟨by decide, (claim_C5_applySignature "Hello" "Best, A").2 (by decide)⟩⟩

/-- Draft `k` of a generated batch (0-based list position), for `k` in
range: index `k + 1`, content from the `k`-th service call on the email
content plus its variation marker, edit mode off. -/
theorem generateBatch_getD (svc : Nat → String → Except String String)
    (body tone len sig : String) (act : Option String) (n k : Nat) (h : k < n) :
    (generateBatch svc body tone len act sig n).getD k default =
      { index := k + 1
        content := generate_email_reply (svc k) (body ++ variationMarker n k)
          tone len act sig
        editMode := false } := by
  simp [generateBatch, List.getD_eq_getElem?_getD, List.getElem?_map,
    List.getElem?_range, h]

/-- Claim C1 as stated is false: when the service call for a draft raises,
the stored content is the bare error string, without the signature applied
(the `except` branch of `generate_email_reply` returns before the signature
append of lines 117-118).  Concretely, with the first of two calls failing
with message `boom` and signature `Best, A`, draft 1's content is
`Error generating reply: boom`, which differs from that error string with
the signature applied. -/
theorem claim_C1_original_refuted :
    ((generateBatch (fun i _ => if i = 0 then .error "boom" else .ok "OK")
        "Body" "professional" "medium" none "Best, A" 2).getD 0 default).content
      = "Error generating reply: boom"
    ∧ applySignature "Error generating reply: boom" "Best, A"
        = "Error generating reply: boom\n\nBest, A"
    ∧ ("Error generating reply: boom" : String)
        ≠ "Error generating reply: boom\n\nBest, A" :=
  ⟨rfl, by decide, by decide⟩

/-- Claim C1 (amended): for every email body, generation config and
draftCount `n` in `[1,3]`, `generateBatch` returns exactly `n` drafts with
indices `1..n` in order; if the generation call for one draft fails, that
draft's content is the literal error message string (without the signature
applied), and each draft in the batch depends only on its own service call,
so the remaining drafts are generated and stored unaffected. -/
theorem claim_C1_batch_error_drafts (svc : Nat → String → Except String String)
    (body tone len sig : String) (act : Option String) (n : Nat)
    (h1 : 1 ≤ n) (h2 : n ≤ 3) :
    (generateBatch svc body tone len act sig n).length = n
    ∧ (∀ k, k < n →
        ((generateBatch svc body tone len act sig n).getD k default).index = k + 1)
    ∧ (∀ k e, k < n →
        svc k (composeReplyPrompt (body ++ variationMarker n k) tone len act)
          = .error e →
        ((generateBatch svc body tone len act sig n).getD k default).content
          = "Error generating reply: " ++ e)
    ∧ (∀ k, k < n →
        ((generateBatch svc body tone len act sig n).getD k default).content
          = generate_email_reply (svc k) (body ++ variationMarker n k)
              tone len act sig) := by
  refine ⟨by simp [generateBatch], ?_, ?_, ?_⟩
  · intro k hk
    rw [generateBatch_getD svc body tone len sig act n k hk]
  · intro k e hk hsvc
    rw [generateBatch_getD svc body tone len sig act n k hk]
    simp [generate_email_reply, hsvc]
  · intro k hk
    rw [generateBatch_getD svc body tone len sig act n k hk]

/-- Witness for the amended C1 at a concrete batch of two drafts whose
first service call fails. -/
theorem claim_C1_batch_error_drafts_witness :
    (generateBatch (fun i _ => if i = 0 then .error "boom" else .ok "OK")
        "Body" "professional" "medium" none "Best, A" 2).length = 2
    ∧ (∀ k, k < 2 →
        ((generateBatch (fun i _ => if i = 0 then .error "boom" else .ok "OK")
            "Body" "professional" "medium" none "Best, A" 2).getD k default).index
          = k + 1)
    ∧ (∀ k e, k < 2 →
        (fun (i : Nat) (_ : String) =>
            if i = 0 then Except.error "boom" else Except.ok "OK") k
          (composeReplyPrompt ("Body" ++ variationMarker 2 k)
            "professional" "medium" none) = .error e →
        ((generateBatch (fun i _ => if i = 0 then .error "boom" else .ok "OK")
            "Body" "professional" "medium" none "Best, A" 2).getD k default).content
          = "Error generating reply: " ++ e)
    ∧ (∀ k, k < 2 →
        ((generateBatch (fun i _ => if i = 0 then .error "boom" else .ok "OK")
            "Body" "professional" "medium" none "Best, A" 2).getD k default).content
          = generate_email_reply
              ((fun (i : Nat) (_ : String) =>
                if i = 0 then Except.error "boom" else Except.ok "OK") k)
              ("Body" ++ variationMarker 2 k) "professional" "medium" none
              "Best, A") :=
  claim_C1_batch_error_drafts
    (fun i _ => if i = 0 then .error "boom" else .ok "OK")
    "Body" "professional" "medium" "Best, A" none 2 (by decide) (by decide)

/-- Rendering a concatenation of draft lists: the second list's sections
start where the first list's numbering ends. -/
theorem exportAllFrom_append (s : Nat) (xs ys : List String) :
    exportAllFrom s (xs ++ ys)
      = exportAllFrom s xs ++ exportAllFrom (s + xs.length) ys := by
  induction xs generalizing s with
  | nil => simp [exportAllFrom]
  | cons x xs ih =>
    have h : s + (xs.length + 1) = s + 1 + xs.length := by omega
    simp only [List.cons_append, List.append_eq, exportAllFrom, ih (s + 1),
      List.length_cons, h, String.append_assoc]

/-- Setting the element right after a prefix replaces exactly that
element. -/
theorem set_append_cons {α : Type} (pre : List α) (old t : α) (post : List α) :
    (pre ++ old :: post).set pre.length t = pre ++ t :: post := by
  induction pre with
  | nil => rfl
  | cons a as ih => simp [List.set, ih]

/-- Claim C2: for a batch split as `pre ++ old :: post` and the in-range
1-based draft number `i = pre.length + 1`, `saveEdit i newText` replaces
exactly draft `i`'s content, and the export of the resulting batch is the
timestamp header line followed by the sections of drafts `1..i-1` (their
last-saved content), then draft `i`'s section containing the new text, then
the sections of drafts `i+1..n` (their last-saved content), in index order,
each section rendered as `=== DRAFT <index> ===` plus content. -/
theorem claim_C2_saveEdit_exportAll (ts : String) (pre post : List String)
    (old t : String) (i : Nat) (hi : i = pre.length + 1) :
    saveEdit (pre ++ old :: post) i t = pre ++ t :: post
    ∧ exportAll ts (pre ++ t :: post)
        = "Generated Email Replies - " ++ ts ++ "\n\n"
          ++ exportAllFrom 1 pre ++ draftSection i t
          ++ exportAllFrom (i + 1) post := by
  subst hi
  constructor
  · show (pre ++ old :: post).set (pre.length + 1 - 1) t = pre ++ t :: post
    exact set_append_cons pre old t post
  · show "Generated Email Replies - " ++ ts ++ "\n\n"
        ++ exportAllFrom 1 (pre ++ t :: post) = _
    rw [exportAllFrom_append 1 pre (t :: post)]
    have h : 1 + pre.length = pre.length + 1 := by omega
    simp only [exportAllFrom, h, String.append_assoc]

/-- Witness for C2: a three-draft batch, saving new text into draft 2. -/
theorem claim_C2_saveEdit_exportAll_witness :
    saveEdit ["a", "b", "c"] 2 "new text" = ["a", "new text", "c"]
    ∧ exportAll "T" ["a", "new text", "c"]
        = "Generated Email Replies - T\n\n"
          ++ exportAllFrom 1 ["a"] ++ draftSection 2 "new text"
          ++ exportAllFrom 3 ["c"] :=
  claim_C2_saveEdit_exportAll "T" ["a"] ["c"] "b" "new text" 2 (by decide)

/-- A part list with no `text/plain` part contributes nothing: the search
continues past it. -/
theorem firstTextPlain_append (pre rest : List EmailPart)
    (h : ∀ q ∈ pre, q.content_type ≠ "text/plain") :
    firstTextPlain (pre ++ rest) = firstTextPlain rest := by
  induction pre with
  | nil => rfl
  | cons p ps ih =>
    have hp : p.content_type ≠ "text/plain" := h p (List.mem_cons_self p ps)
    simp only [List.cons_append, firstTextPlain, if_neg hp]
    exact ih fun q hq => h q (List.mem_cons_of_mem p hq)

/-- Claim C6 as stated is false: the code decodes with
`errors='ignore'`, which drops invalid sequences instead of replacing
them, so a `text/plain` part consisting of the single invalid byte `0xFF`
yields a silently empty body (the formatted output ends at the blank line),
not an error string and not a replacement character. -/
theorem claim_C6_original_refuted :
    extract_text_from_eml ⟨some "S", some "A", some "D",
        .multipart [⟨"text/plain", [0xFF]⟩, ⟨"text/html", [104, 105]⟩]⟩
      = "From: A\nSubject: S\nDate: D\n\n"
    ∧ utf8DecodeIgnore [0xFF] = ""
    ∧ ("" : String) ≠ String.mk [Char.ofNat 0xFFFD] :=
  ⟨by decide, by decide, by decide⟩

/-- Claim C6 (amended): for every multipart message, extraction takes the
body from the first `text/plain` part only — every earlier part with a
different content type (such as `text/html`) is skipped and later parts are
ignored — decoding its bytes as UTF-8 with invalid sequences dropped
(`errors='ignore'`) rather than failing; an all-invalid payload therefore
yields a silently empty body string, not an error string. -/
theorem claim_C6_first_plain_ignore_decode (sub sen dat : Option String)
    (pre : List EmailPart) (p : EmailPart) (post : List EmailPart)
    (hpre : ∀ q ∈ pre, q.content_type ≠ "text/plain")
    (hp : p.content_type = "text/plain") :
    extract_text_from_eml ⟨sub, sen, dat, .multipart (pre ++ p :: post)⟩
      = "From: " ++ sen.getD "Unknown Sender" ++ "\nSubject: "
        ++ sub.getD "No Subject" ++ "\nDate: " ++ dat.getD "No Date"
        ++ "\n\n" ++ utf8DecodeIgnore p.payload := by
  have h1 : firstTextPlain (pre ++ p :: post) = some p.payload := by
    rw [firstTextPlain_append pre (p :: post) hpre]
    simp [firstTextPlain, hp]
  simp [extract_text_from_eml, h1]

/-- Witness for the amended C6: an html part before the plain part, a
second plain part after it, and a partly invalid payload. -/
theorem claim_C6_first_plain_ignore_decode_witness :
    ((∀ q ∈ [(⟨"text/html", [104, 105]⟩ : EmailPart)],
        q.content_type ≠ "text/plain")
      ∧ (⟨"text/plain", [72, 0xFF, 105]⟩ : EmailPart).content_type = "text/plain")
    ∧ extract_text_from_eml ⟨some "S", some "A", some "D",
        .multipart [⟨"text/html", [104, 105]⟩, ⟨"text/plain", [72, 0xFF, 105]⟩,
          ⟨"text/plain", [122]⟩]⟩
      = "From: A\nSubject: S\nDate: D\n\n"
        ++ utf8DecodeIgnore [72, 0xFF, 105] :=
  ⟨⟨by decide, by decide⟩,
   claim_C6_first_plain_ignore_decode (some "S") (some "A") (some "D")
     [⟨"text/html", [104, 105]⟩] ⟨"text/plain", [72, 0xFF, 105]⟩
     [⟨"text/plain", [122]⟩] (by decide) (by decide)⟩

/-- Claim C7: extraction reads the From, Subject and Date headers with the
placeholders `Unknown Sender` / `No Subject` / `No Date` for absent ones,
and assembles the result as a `From:` line, a `Subject:` line, a `Date:`
line, a blank line, then the decoded body — for a single-payload message
the decoded payload, for a multipart one the decoded first `text/plain`
part (or the empty string when there is none). -/
theorem claim_C7_eml_headers (sub sen dat : Option String)
    (payload : List Nat) (parts : List EmailPart) :
    extract_text_from_eml ⟨sub, sen, dat, .single payload⟩
      = "From: " ++ sen.getD "Unknown Sender" ++ "\nSubject: "
        ++ sub.getD "No Subject" ++ "\nDate: " ++ dat.getD "No Date"
        ++ "\n\n" ++ utf8DecodeIgnore payload
    ∧ extract_text_from_eml ⟨sub, sen, dat, .multipart parts⟩
      = "From: " ++ sen.getD "Unknown Sender" ++ "\nSubject: "
        ++ sub.getD "No Subject" ++ "\nDate: " ++ dat.getD "No Date"
        ++ "\n\n" ++ ((firstTextPlain parts).map utf8DecodeIgnore).getD "" := by
  constructor
  · rfl
  · cases h : firstTextPlain parts <;> simp [extract_text_from_eml, h]

/-- Claim C10: a multipart message none of whose parts is `text/plain`
extracts without error to the three header lines, the blank line, and an
empty body. -/
theorem claim_C10_no_plain_part (sub sen dat : Option String)
    (parts : List EmailPart)
    (h : ∀ p ∈ parts, p.content_type ≠ "text/plain") :
    extract_text_from_eml ⟨sub, sen, dat, .multipart parts⟩
      = "From: " ++ sen.getD "Unknown Sender" ++ "\nSubject: "
        ++ sub.getD "No Subject" ++ "\nDate: " ++ dat.getD "No Date"
        ++ "\n\n" := by
  have h1 : firstTextPlain parts = none := by
    have := firstTextPlain_append parts [] h
    simpa using this
  simp [extract_text_from_eml, h1]

/-- Witness for C10: an html-only multipart message with no headers. -/
theorem claim_C10_no_plain_part_witness :
    (∀ p ∈ [(⟨"text/html", [104, 105]⟩ : EmailPart)],
      p.content_type ≠ "text/plain")
    ∧ extract_text_from_eml ⟨none, none, none,
        .multipart [⟨"text/html", [104, 105]⟩]⟩
      = "From: Unknown Sender\nSubject: No Subject\nDate: No Date\n\n" :=
  ⟨by decide,
   claim_C10_no_plain_part none none none [⟨"text/html", [104, 105]⟩] (by decide)⟩

/-- Claim C9: docx extraction concatenates the paragraph texts joined by
single newline separators in paragraph order (an empty document gives the
empty string, and a cons prepends its paragraph and, when more follow, a
newline), so paragraphs `Hi`, ``, `Thanks` yield `Hi\n\nThanks`; a corrupt
container (`docx.Document` raising `e`) yields the human-readable error
string instead of propagating the failure. -/
theorem claim_C9_docx_paragraphs (e p : String) (ps : List String) :
    extract_text_from_docx (.ok []) = ""
    ∧ extract_text_from_docx (.ok (p :: ps))
        = (if ps = [] then p else p ++ "\n" ++ extract_text_from_docx (.ok ps))
    ∧ extract_text_from_docx (.ok ["Hi", "", "Thanks"]) = "Hi\n\nThanks"
    ∧ extract_text_from_docx (.error e) = "Error reading DOCX file: " ++ e := by
  refine ⟨rfl, ?_, by decide, rfl⟩
  cases ps with
  | nil => rfl
  | cons q qs => simp [extract_text_from_docx, pyJoin]

/-- Claim C8 concerns a defect: the plain-text upload branch of `main`
(line 242) decodes with `str(file_bytes, 'utf-8')` and no enclosing
`try`/`except`, so on invalid UTF-8 the `UnicodeDecodeError` escapes as a
crash instead of being surfaced as inline error text.  At the failing
input `[0xFF]` the strict decode is `none` (the raised exception), while a
valid input decodes normally. -/
theorem claim_C8_txt_decode_uncaught :
    loadTxtUpload [0xFF] = none ∧ loadTxtUpload [72, 105] = some "Hi" :=
  ⟨by decide, by decide⟩
